import Mathlib

/-!
Shallow embedding of the NHL Companion read-only HTTP API:
bearer-token authentication (`api/auth.py`), the route handlers
(`api/router.py`, `api_app.py`) and the repository layer
(`nhl_db/repositories/*.py`).  Timestamps are modelled as minutes since
the Unix epoch (UTC); the store is an in-memory list of rows per table,
and every handler returns its HTTP response together with the trace of
repository calls it performed.
-/

namespace NhlApi

/-- A civil (calendar) date: year, month, day. -/
structure CivilDate where
  year : Int
  month : Int
  day : Int
deriving DecidableEq, Repr

/-- Days since 1970-01-01 of a civil date (proleptic Gregorian calendar,
standard days-from-civil algorithm, floor division throughout). -/
def daysFromCivil (c : CivilDate) : Int :=
  let y := if c.month ≤ 2 then c.year - 1 else c.year
  let era := Int.fdiv y 400
  let yoe := y - era * 400
  let mp := (c.month + 9) % 12
  let doy := Int.fdiv (153 * mp + 2) 5 + c.day - 1
  let doe := yoe * 365 + Int.fdiv yoe 4 - Int.fdiv yoe 100 + doy
  era * 146097 + doe - 719468

/-- Civil date of a day count since 1970-01-01 (inverse of `daysFromCivil`). -/
def civilFromDays (days : Int) : CivilDate :=
  let z := days + 719468
  let era := Int.fdiv z 146097
  let doe := z - era * 146097
  let yoe := Int.fdiv (doe - Int.fdiv doe 1460 + Int.fdiv doe 36524 - Int.fdiv doe 146096) 365
  let y := yoe + era * 400
  let doy := doe - (365 * yoe + Int.fdiv yoe 4 - Int.fdiv yoe 100)
  let mp := Int.fdiv (5 * doy + 2) 153
  let d := doy - Int.fdiv (153 * mp + 2) 5 + 1
  let m := if mp < 10 then mp + 3 else mp - 9
  ⟨if m ≤ 2 then y + 1 else y, m, d⟩

/-- The civil date one day after `c`. -/
def nextDay (c : CivilDate) : CivilDate :=
  civilFromDays (daysFromCivil c + 1)

/-- UTC instant (minutes since the epoch) of a given UTC civil date and time. -/
def utcMinutesAt (c : CivilDate) (hh mm : Int) : Int :=
  1440 * daysFromCivil c + 60 * hh + mm

/-- Day of week of a civil date, 0 = Sunday (1970-01-01 was a Thursday). -/
def weekday (c : CivilDate) : Int :=
  (daysFromCivil c + 4) % 7

/-- Day of month of the first Sunday of the given month. -/
def firstSundayDay (y month : Int) : Int :=
  1 + (7 - weekday ⟨y, month, 1⟩) % 7

/-- Modelled from the spec: the timezone database (`pytz`) is an external
collaborator of this repository; a timezone converts a local civil day to
its UTC window start and a UTC instant to the local calendar date
(spec §4.2, §4.3, glossary "Civil date"). -/
structure Timezone where
  name : String
  /-- UTC instant (minutes) at which the local civil day `c` begins. -/
  localMidnightUtc : CivilDate → Int
  /-- Local calendar date at a given UTC instant (minutes). -/
  localCivilDate : Int → CivilDate

/-- The fixed-offset UTC zone. -/
def utcTz : Timezone where
  name := "UTC"
  localMidnightUtc := fun c => utcMinutesAt c 0 0
  localCivilDate := fun u => civilFromDays (Int.fdiv u 1440)

/-- US eastern daylight saving is in force at UTC instant `u`:
from 07:00 UTC of the second Sunday of March (02:00 EST) until
06:00 UTC of the first Sunday of November (02:00 EDT). -/
def nyIsDstUtc (u : Int) : Bool :=
  let y := (civilFromDays (Int.fdiv u 1440)).year
  let dstStart := utcMinutesAt ⟨y, 3, firstSundayDay y 3 + 7⟩ 7 0
  let dstEnd := utcMinutesAt ⟨y, 11, firstSundayDay y 11⟩ 6 0
  decide (dstStart ≤ u ∧ u < dstEnd)

/-- America/New_York: UTC-5 (EST) in winter, UTC-4 (EDT) in summer. -/
def newYorkTz : Timezone where
  name := "America/New_York"
  localMidnightUtc := fun c =>
    let uEst := utcMinutesAt c 5 0
    if nyIsDstUtc uEst then utcMinutesAt c 4 0 else uEst
  localCivilDate := fun u =>
    civilFromDays (Int.fdiv (u + (if nyIsDstUtc u then -240 else -300)) 1440)

/-- New Zealand daylight saving is in force at UTC instant `u`:
from 14:00 UTC of the Saturday before the last Sunday of September
(02:00 NZST Sunday) until 14:00 UTC of the Saturday before the first
Sunday of April (03:00 NZDT Sunday). -/
def nzIsDstUtc (u : Int) : Bool :=
  let y := (civilFromDays (Int.fdiv u 1440)).year
  let dstStart := utcMinutesAt ⟨y, 9, 30 - weekday ⟨y, 9, 30⟩⟩ 2 0 - 720
  let dstEnd := utcMinutesAt ⟨y, 4, firstSundayDay y 4⟩ 3 0 - 780
  decide (dstStart ≤ u ∨ u < dstEnd)

/-- Pacific/Auckland: UTC+12 (NZST) in winter, UTC+13 (NZDT) in summer. -/
def aucklandTz : Timezone where
  name := "Pacific/Auckland"
  localMidnightUtc := fun c =>
    let uNzst := utcMinutesAt c 0 0 - 720
    if nzIsDstUtc uNzst then utcMinutesAt c 0 0 - 780 else uNzst
  localCivilDate := fun u =>
    civilFromDays (Int.fdiv (u + (if nzIsDstUtc u then 780 else 720)) 1440)

/-- The modelled IANA zones relevant to this development. -/
def tzDatabase : List Timezone := [utcTz, newYorkTz, aucklandTz]

/-- Modelled from the spec: `pytz.timezone` lookup — `some` a zone for a
recognized IANA name, `none` (an `UnknownTimeZoneError` in the source)
otherwise. -/
def pytz_timezone (s : String) : Option Timezone :=
  tzDatabase.find? (fun tz => tz.name = s)

/-- Value of an ASCII digit character, if it is one. -/
def digitVal (c : Char) : Option Int :=
  if 48 ≤ c.toNat ∧ c.toNat ≤ 57 then some ((c.toNat : Int) - 48) else none

/-- Parse a string of the exact shape `YYYY-MM-DD` (the `/api/games`
query pattern) into a civil date; `none` when the shape does not match. -/
def parseDate (s : String) : Option CivilDate :=
  match s.data with
  | [y1, y2, y3, y4, h1, m1, m2, h2, d1, d2] =>
    if h1 = '-' ∧ h2 = '-' then
      match digitVal y1, digitVal y2, digitVal y3, digitVal y4,
            digitVal m1, digitVal m2, digitVal d1, digitVal d2 with
      | some a, some b, some c, some d, some e, some f, some g, some h =>
        some ⟨1000 * a + 100 * b + 10 * c + d, 10 * e + f, 10 * g + h⟩
      | _, _, _, _, _, _, _, _ => none
    else none
  | _ => none

/-- Render a nonnegative integer zero-padded to two digits. -/
def pad2 (n : Int) : String :=
  if n < 10 then "0" ++ toString n else toString n

/-- Render a date as `YYYY-MM-DD` (the `strftime` format of the source). -/
def formatDate (c : CivilDate) : String :=
  toString c.year ++ "-" ++ pad2 c.month ++ "-" ++ pad2 c.day

/-- A `teams` table row, the columns selected by `teams_repo.py`. -/
structure Team where
  teamId : Int
  teamName : String
  teamCity : Option String
  teamAbbrev : Option String
  teamIsActive : Bool
  teamLogoUrl : Option String
deriving DecidableEq, Repr

/-- A `players` table row, the columns selected by `players_repo.py`
(including `playerIsActive`, which the response model does not carry). -/
structure PlayerRow where
  playerId : Int
  playerTeamId : Option Int
  playerFirstName : String
  playerLastName : String
  playerNumber : Option Int
  playerPosition : Option String
  playerHeadshotUrl : Option String
  playerHomeCity : Option String
  playerHomeCountry : Option String
  playerIsActive : Bool
deriving DecidableEq, Repr

/-- The `PlayerResponse` pydantic model of `api/models.py`: the nine
fields it declares — there is no active flag among them. -/
structure PlayerResponse where
  playerId : Int
  playerTeamId : Option Int
  playerFirstName : String
  playerLastName : String
  playerNumber : Option Int
  playerPosition : Option String
  playerHeadshotUrl : Option String
  playerHomeCity : Option String
  playerHomeCountry : Option String
deriving DecidableEq, Repr

/-- Constructing `PlayerResponse(**player)` from a row: pydantic keeps the
declared fields and (with default config) ignores the extra
`playerIsActive` key. -/
def PlayerResponse.ofRow (p : PlayerRow) : PlayerResponse :=
  ⟨p.playerId, p.playerTeamId, p.playerFirstName, p.playerLastName, p.playerNumber,
   p.playerPosition, p.playerHeadshotUrl, p.playerHomeCity, p.playerHomeCountry⟩

/-- A `games` row / `GameResponse` model: `gameDateTimeUtc` is the
authoritative UTC start timestamp, in minutes since the epoch. -/
structure Game where
  gameId : Int
  gameSeason : Int
  gameType : Int
  gameDateTimeUtc : Int
  gameVenue : Option String
  gameHomeTeamId : Int
  gameAwayTeamId : Int
  gameState : String
  gamePeriod : Option Int
  gameClock : Option String
  gameHomeScore : Int
  gameAwayScore : Int
  gameHomeSOG : Int
  gameAwaySOG : Int
  homeTeamName : Option String
  homeTeamAbbrev : Option String
  awayTeamName : Option String
  awayTeamAbbrev : Option String
deriving DecidableEq, Repr

/-- A `plays` table row, the columns selected by `plays_repo.py`. -/
structure Play where
  playId : Int
  playGameId : Int
  playIndex : Int
  playTeamId : Option Int
  playPrimaryPlayerId : Option Int
  playLosingPlayerId : Option Int
  playSecondaryPlayerId : Option Int
  playTertiaryPlayerId : Option Int
  playPeriod : Int
  playTime : String
  playTimeReamaining : String
  playType : String
  playZone : Option Int
  playXCoord : Option Int
  playYCoord : Option Int
deriving DecidableEq, Repr

/-- The relational store: one list of rows per table. -/
structure Store where
  teams : List Team
  players : List PlayerRow
  games : List Game
  plays : List Play
deriving Repr

/-- Lexicographic order by a primary and a secondary projected key, the
meaning of a two-column SQL `ORDER BY`. -/
def lexLe {α κ₁ κ₂ : Type} [LinearOrder κ₁] [LinearOrder κ₂]
    (f : α → κ₁) (g : α → κ₂) (p q : α) : Prop :=
  f p < f q ∨ (f p = f q ∧ g p ≤ g q)

instance {α κ₁ κ₂ : Type} [LinearOrder κ₁] [LinearOrder κ₂] (f : α → κ₁) (g : α → κ₂) :
    DecidableRel (lexLe f g) :=
  fun _ _ => inferInstanceAs (Decidable (_ ∨ _))

instance {α κ₁ κ₂ : Type} [LinearOrder κ₁] [LinearOrder κ₂] (f : α → κ₁) (g : α → κ₂) :
    IsTotal α (lexLe f g) := by
  constructor
  intro a b
  rcases lt_trichotomy (f a) (f b) with h | h | h
  · exact Or.inl (Or.inl h)
  · rcases le_total (g a) (g b) with h2 | h2
    · exact Or.inl (Or.inr ⟨h, h2⟩)
    · exact Or.inr (Or.inr ⟨h.symm, h2⟩)
  · exact Or.inr (Or.inl h)

instance {α κ₁ κ₂ : Type} [LinearOrder κ₁] [LinearOrder κ₂] (f : α → κ₁) (g : α → κ₂) :
    IsTrans α (lexLe f g) := by
  constructor
  intro a b c hab hbc
  rcases hab with h1 | ⟨e1, l1⟩ <;> rcases hbc with h2 | ⟨e2, l2⟩
  · exact Or.inl (lt_trans h1 h2)
  · exact Or.inl (e2 ▸ h1)
  · exact Or.inl (e1 ▸ h2)
  · exact Or.inr ⟨e1.trans e2, le_trans l1 l2⟩

/-- Order by a single projected key (a one-column SQL `ORDER BY`). -/
def keyLe {α κ : Type} [LinearOrder κ] (f : α → κ) (p q : α) : Prop :=
  f p ≤ f q

instance {α κ : Type} [LinearOrder κ] (f : α → κ) : DecidableRel (keyLe f) :=
  fun _ _ => inferInstanceAs (Decidable (_ ≤ _))

instance {α κ : Type} [LinearOrder κ] (f : α → κ) : IsTotal α (keyLe f) :=
  ⟨fun a b => le_total (f a) (f b)⟩

instance {α κ : Type} [LinearOrder κ] (f : α → κ) : IsTrans α (keyLe f) :=
  ⟨fun _ _ _ h1 h2 => le_trans h1 h2⟩

/-- The `ORDER BY playerLastName, playerFirstName` ordering. -/
abbrev playersOrderBy : PlayerRow → PlayerRow → Prop :=
  lexLe (fun p => p.playerLastName.data) (fun p => p.playerFirstName.data)

/-- The `ORDER BY playPeriod, playIndex` ordering. -/
abbrev playsOrderBy : Play → Play → Prop :=
  lexLe (fun p => p.playPeriod) (fun p => p.playIndex)

/-- The `ORDER BY teamName` ordering. -/
abbrev teamsOrderBy : Team → Team → Prop :=
  keyLe (fun t => t.teamName.data)

namespace teams_repo

/-- Embeds `teams_repo.get_all_teams`: every `teams` row, ordered by
`teamName`. -/
def get_all_teams (store : Store) : List Team :=
  List.insertionSort teamsOrderBy store.teams

/-- Embeds `teams_repo.get_active_teams`: rows with
`teamIsActive = TRUE`, ordered by `teamName`. -/
def get_active_teams (store : Store) : List Team :=
  List.insertionSort teamsOrderBy (store.teams.filter (fun t => t.teamIsActive))

end teams_repo

namespace players_repo

/-- Embeds `players_repo.get_players_by_team`: rows with
`playerTeamId = %s`, ordered by `(playerLastName, playerFirstName)`. -/
def get_players_by_team (store : Store) (team_id : Int) : List PlayerRow :=
  List.insertionSort playersOrderBy
    (store.players.filter (fun p => decide (p.playerTeamId = some team_id)))

/-- Embeds `players_repo.get_player_by_id`: the first row with
`playerId = %s`, if any (`fetchone`). -/
def get_player_by_id (store : Store) (player_id : Int) : Option PlayerRow :=
  store.players.find? (fun p => decide (p.playerId = player_id))

end players_repo

namespace plays_repo

/-- Embeds `plays_repo.get_plays_by_game`: rows with `playGameId = %s`,
ordered by `(playPeriod, playIndex)`. -/
def get_plays_by_game (store : Store) (game_id : Int) : List Play :=
  List.insertionSort playsOrderBy
    (store.plays.filter (fun p => decide (p.playGameId = game_id)))

end plays_repo

/-- Modelled from the spec: `games_repo.py` is not under `src/`; per
spec §4.2, `listGamesByLocalDate` returns every game whose UTC start
timestamp lies in the half-open window from local midnight of `d` to
local midnight of the next day, both converted to UTC bounds. -/
def listGamesByLocalDate (store : Store) (d : CivilDate) (tz : Timezone) : List Game :=
  let lo := tz.localMidnightUtc d
  let hi := tz.localMidnightUtc (nextDay d)
  store.games.filter (fun g => decide (lo ≤ g.gameDateTimeUtc ∧ g.gameDateTimeUtc < hi))

namespace games_repo

/-- Modelled from the spec: `games_repo.get_games_by_date(date, timezone)`
(file not under `src/`) — parses the date string and resolves the zone,
then filters on the civil-day window per spec §4.2. -/
def get_games_by_date (store : Store) (dateStr tzStr : String) : List Game :=
  match parseDate dateStr, pytz_timezone tzStr with
  | some d, some tz => listGamesByLocalDate store d tz
  | _, _ => []

/-- Modelled from the spec: `games_repo.get_game_by_id(game_id)` (file not
under `src/`) — per spec §4.2, `getGameById(gameId) -> Game?`, absence
being a normal not-found outcome. -/
def get_game_by_id (store : Store) (game_id : Int) : Option Game :=
  store.games.find? (fun g => decide (g.gameId = game_id))

end games_repo

/-- Opening brace of a JSON object. -/
def lbrace : String := "\x7b"

/-- Closing brace of a JSON object. -/
def rbrace : String := "\x7d"

/-- A double-quoted JSON string. -/
def jq (s : String) : String := "\"" ++ s ++ "\""

/-- Serialize an optional string field. -/
def jsonOptStr : Option String → String
  | none => "null"
  | some s => jq s

/-- Serialize an optional integer field. -/
def jsonOptInt : Option Int → String
  | none => "null"
  | some n => toString n

/-- Serialize a boolean field. -/
def jsonBool (b : Bool) : String := if b then "true" else "false"

/-- One `key:value` member of a JSON object. -/
def jsonField (k v : String) : String := jq k ++ ":" ++ v

/-- A JSON object from its members. -/
def jsonObj (fields : List String) : String :=
  lbrace ++ String.intercalate "," fields ++ rbrace

/-- A JSON array from its serialized elements. -/
def jsonArr (elems : List String) : String :=
  "[" ++ String.intercalate "," elems ++ "]"

/-- Serialized `TeamResponse`, fields in declaration order. -/
def renderTeam (t : Team) : String :=
  jsonObj [jsonField "teamId" (toString t.teamId),
    jsonField "teamName" (jq t.teamName),
    jsonField "teamCity" (jsonOptStr t.teamCity),
    jsonField "teamAbbrev" (jsonOptStr t.teamAbbrev),
    jsonField "teamIsActive" (jsonBool t.teamIsActive),
    jsonField "teamLogoUrl" (jsonOptStr t.teamLogoUrl)]

/-- Serialized `PlayerResponse`, fields in declaration order. -/
def renderPlayer (p : PlayerResponse) : String :=
  jsonObj [jsonField "playerId" (toString p.playerId),
    jsonField "playerTeamId" (jsonOptInt p.playerTeamId),
    jsonField "playerFirstName" (jq p.playerFirstName),
    jsonField "playerLastName" (jq p.playerLastName),
    jsonField "playerNumber" (jsonOptInt p.playerNumber),
    jsonField "playerPosition" (jsonOptStr p.playerPosition),
    jsonField "playerHeadshotUrl" (jsonOptStr p.playerHeadshotUrl),
    jsonField "playerHomeCity" (jsonOptStr p.playerHomeCity),
    jsonField "playerHomeCountry" (jsonOptStr p.playerHomeCountry)]

/-- Serialized `GameResponse`, fields in declaration order. -/
def renderGame (g : Game) : String :=
  jsonObj [jsonField "gameId" (toString g.gameId),
    jsonField "gameSeason" (toString g.gameSeason),
    jsonField "gameType" (toString g.gameType),
    jsonField "gameDateTimeUtc" (toString g.gameDateTimeUtc),
    jsonField "gameVenue" (jsonOptStr g.gameVenue),
    jsonField "gameHomeTeamId" (toString g.gameHomeTeamId),
    jsonField "gameAwayTeamId" (toString g.gameAwayTeamId),
    jsonField "gameState" (jq g.gameState),
    jsonField "gamePeriod" (jsonOptInt g.gamePeriod),
    jsonField "gameClock" (jsonOptStr g.gameClock),
    jsonField "gameHomeScore" (toString g.gameHomeScore),
    jsonField "gameAwayScore" (toString g.gameAwayScore),
    jsonField "gameHomeSOG" (toString g.gameHomeSOG),
    jsonField "gameAwaySOG" (toString g.gameAwaySOG),
    jsonField "homeTeamName" (jsonOptStr g.homeTeamName),
    jsonField "homeTeamAbbrev" (jsonOptStr g.homeTeamAbbrev),
    jsonField "awayTeamName" (jsonOptStr g.awayTeamName),
    jsonField "awayTeamAbbrev" (jsonOptStr g.awayTeamAbbrev)]

/-- Serialized `PlayResponse`, fields in declaration order. -/
def renderPlay (p : Play) : String :=
  jsonObj [jsonField "playId" (toString p.playId),
    jsonField "playGameId" (toString p.playGameId),
    jsonField "playIndex" (toString p.playIndex),
    jsonField "playTeamId" (jsonOptInt p.playTeamId),
    jsonField "playPrimaryPlayerId" (jsonOptInt p.playPrimaryPlayerId),
    jsonField "playLosingPlayerId" (jsonOptInt p.playLosingPlayerId),
    jsonField "playSecondaryPlayerId" (jsonOptInt p.playSecondaryPlayerId),
    jsonField "playTertiaryPlayerId" (jsonOptInt p.playTertiaryPlayerId),
    jsonField "playPeriod" (toString p.playPeriod),
    jsonField "playTime" (jq p.playTime),
    jsonField "playTimeReamaining" (jq p.playTimeReamaining),
    jsonField "playType" (jq p.playType),
    jsonField "playZone" (jsonOptInt p.playZone),
    jsonField "playXCoord" (jsonOptInt p.playXCoord),
    jsonField "playYCoord" (jsonOptInt p.playYCoord)]

/-- Serialized `GameDetailResponse`: the game plus its plays. -/
def renderGameDetail (g : Game) (plays : List Play) : String :=
  jsonObj [jsonField "game" (renderGame g),
    jsonField "plays" (jsonArr (plays.map renderPlay))]

/-- An HTTP response: status code, headers, serialized JSON body. -/
structure Response where
  statusCode : Nat
  headers : List (String × String)
  body : String
deriving DecidableEq, Repr

/-- The 403 of FastAPI `HTTPBearer` when no credential is presented. -/
def notAuthenticatedResp : Response :=
  ⟨403, [], jsonObj [jsonField "detail" (jq "Not authenticated")]⟩

/-- The 403 of FastAPI `HTTPBearer` for a non-bearer scheme. -/
def invalidSchemeResp : Response :=
  ⟨403, [], jsonObj [jsonField "detail" (jq "Invalid authentication credentials")]⟩

/-- The 401 raised by `verify_token` on a credential mismatch, carrying
the `WWW-Authenticate: Bearer` challenge header. -/
def invalidTokenResp : Response :=
  ⟨401, [("WWW-Authenticate", "Bearer")],
    jsonObj [jsonField "detail" (jq "Invalid authentication credentials")]⟩

/-- The 500 of `api_app.general_exception_handler`. -/
def internalErrorResp : Response :=
  ⟨500, [], jsonObj [jsonField "detail" (jq "An unexpected error occurred")]⟩

/-- The 422 of `api_app.validation_exception_handler`; the `errors` array
carries the framework's per-field violation entries. -/
def validationErrorResp : Response :=
  ⟨422, [], jsonObj [jsonField "detail" (jq "Invalid request parameters"),
    jsonField "errors" (jsonArr [jq "query.date: string should match pattern"])]⟩

/-- The 400 raised on an unrecognized timezone identifier. -/
def invalidTimezoneResp (tzStr : String) : Response :=
  ⟨400, [], jsonObj [jsonField "detail"
    (jq ("Invalid timezone: " ++ tzStr ++ ". Must be a valid IANA timezone string."))]⟩

/-- A 404 for an absent player or game (`detail` as in the source). -/
def notFoundResp (what : String) (ident : Int) : Response :=
  ⟨404, [], jsonObj [jsonField "detail" (jq (what ++ " " ++ toString ident ++ " not found"))]⟩

/-- A 200 with the given serialized body. -/
def ok200 (body : String) : Response := ⟨200, [], body⟩

/-- A request's parsed `Authorization` header: absent, or a scheme with
its credential. -/
inductive AuthHeader where
  | absent
  | presented (scheme : String) (credentials : String)
deriving DecidableEq, Repr

/-- ASCII lowercase (Python `str.lower` restricted to ASCII schemes). -/
def asciiLower (s : String) : String :=
  ⟨s.data.map (fun c => if 65 ≤ c.toNat ∧ c.toNat ≤ 90 then Char.ofNat (c.toNat + 32) else c)⟩

/-- Embeds FastAPI's `HTTPBearer()` security scheme used by `auth.py`
(`auto_error=True`): an absent or empty authorization is rejected 403
"Not authenticated"; a non-bearer scheme is rejected 403 "Invalid
authentication credentials"; otherwise the credential is passed on. -/
def httpBearer : AuthHeader → Except Response String
  | .absent => .error notAuthenticatedResp
  | .presented scheme credentials =>
    if scheme = "" ∨ credentials = "" then .error notAuthenticatedResp
    else if asciiLower scheme = "bearer" then .ok credentials
    else .error invalidSchemeResp

/-- Embeds `auth.verify_token` together with `auth.get_api_token`: the
`HTTPBearer` dependency runs first; an unprovisioned
`API_BEARER_TOKEN` raises (`RuntimeError`), which the general exception
handler of `api_app.py` turns into the generic 500; a credential unequal
to the configured secret is rejected 401 with the challenge header. -/
def verify_token (secret : Option String) (auth : AuthHeader) : Except Response String :=
  match httpBearer auth with
  | .error r => .error r
  | .ok cred =>
    match secret with
    | none => .error internalErrorResp
    | some expected =>
      if cred = expected then .ok cred else .error invalidTokenResp

/-- One repository invocation, with its arguments. -/
inductive StoreCall where
  | getAllTeams
  | getActiveTeams
  | getGamesByDate (dateStr tzStr : String)
  | getPlayersByTeam (teamId : Int)
  | getPlayerById (playerId : Int)
  | getGameById (gameId : Int)
  | getPlaysByGame (gameId : Int)
deriving DecidableEq, Repr

/-- Embeds `router.get_all_teams` (`GET /api/teams`). -/
def api_get_teams (secret : Option String) (store : Store) (auth : AuthHeader) :
    Response × List StoreCall :=
  match verify_token secret auth with
  | .error r => (r, [])
  | .ok _ =>
    let teams := teams_repo.get_all_teams store
    (ok200 (jsonArr (teams.map renderTeam)), [.getAllTeams])

/-- Embeds `router.get_active_teams` (`GET /api/teams/active`). -/
def api_get_active_teams (secret : Option String) (store : Store) (auth : AuthHeader) :
    Response × List StoreCall :=
  match verify_token secret auth with
  | .error r => (r, [])
  | .ok _ =>
    let teams := teams_repo.get_active_teams store
    (ok200 (jsonArr (teams.map renderTeam)), [.getActiveTeams])

/-- The body of `router.get_games_by_date` past query validation:
resolve the timezone (400 when unknown), default the date to today in
that timezone, then query the store for the civil-day window. -/
def gamesByDateCore (store : Store) (dateOpt : Option String) (tzStr : String) (now : Int) :
    Response × List StoreCall :=
  match pytz_timezone tzStr with
  | none => (invalidTimezoneResp tzStr, [])
  | some tz =>
    let dateStr := match dateOpt with
      | some s => s
      | none => formatDate (tz.localCivilDate now)
    let games := games_repo.get_games_by_date store dateStr tzStr
    (ok200 (jsonArr (games.map renderGame)), [.getGamesByDate dateStr tzStr])

/-- Embeds `router.get_games_by_date` (`GET /api/games`): the auth
dependency runs first; the `date` query parameter is checked against the
pattern `^\d{4}-\d{2}-\d{2}$` by request validation (422 on mismatch);
`timezone` defaults to `America/New_York`; `now` is the UTC instant at
which this request observes the wall clock. -/
def api_get_games (secret : Option String) (store : Store) (auth : AuthHeader)
    (dateParam tzParam : Option String) (now : Int) : Response × List StoreCall :=
  match verify_token secret auth with
  | .error r => (r, [])
  | .ok _ =>
    match dateParam with
    | some s =>
      if (parseDate s).isSome then gamesByDateCore store (some s) (tzParam.getD "America/New_York") now
      else (validationErrorResp, [])
    | none => gamesByDateCore store none (tzParam.getD "America/New_York") now

/-- Embeds `router.get_players_by_team` (`GET /api/teams/.../players`):
an empty row set is returned as an empty 200 list, not an error. -/
def api_get_players_by_team (secret : Option String) (store : Store) (auth : AuthHeader)
    (team_id : Int) : Response × List StoreCall :=
  match verify_token secret auth with
  | .error r => (r, [])
  | .ok _ =>
    let players := players_repo.get_players_by_team store team_id
    if players = [] then
      (ok200 (jsonArr []), [.getPlayersByTeam team_id])
    else
      (ok200 (jsonArr (players.map (fun p => renderPlayer (PlayerResponse.ofRow p)))),
        [.getPlayersByTeam team_id])

/-- Embeds `router.get_player_by_id` (`GET /api/players/...`): absence is
a 404. -/
def api_get_player_by_id (secret : Option String) (store : Store) (auth : AuthHeader)
    (player_id : Int) : Response × List StoreCall :=
  match verify_token secret auth with
  | .error r => (r, [])
  | .ok _ =>
    match players_repo.get_player_by_id store player_id with
    | none => (notFoundResp "Player" player_id, [.getPlayerById player_id])
    | some p => (ok200 (renderPlayer (PlayerResponse.ofRow p)), [.getPlayerById player_id])

/-- Embeds `router.get_game_detail` (`GET /api/games/...`): the game is
resolved first; absence is a 404 and the plays are not fetched; otherwise
the ordered plays are fetched and the composed detail returned. -/
def api_get_game_detail (secret : Option String) (store : Store) (auth : AuthHeader)
    (game_id : Int) : Response × List StoreCall :=
  match verify_token secret auth with
  | .error r => (r, [])
  | .ok _ =>
    match games_repo.get_game_by_id store game_id with
    | none => (notFoundResp "Game" game_id, [.getGameById game_id])
    | some game =>
      let plays := plays_repo.get_plays_by_game store game_id
      (ok200 (renderGameDetail game plays), [.getGameById game_id, .getPlaysByGame game_id])

/-- Embeds `api_app.health_check` (`GET /health`): unauthenticated. -/
def api_health : Response × List StoreCall :=
  (ok200 (jsonObj [jsonField "status" (jq "healthy"),
    jsonField "service" (jq "NHL Companion API"),
    jsonField "version" (jq "1.0.0")]), [])

/-- Player rows equivalent up to the dropped `playerIsActive` column:
equal projections into `PlayerResponse`. -/
def rowEquiv (p q : PlayerRow) : Prop :=
  PlayerResponse.ofRow p = PlayerResponse.ofRow q

/-- A sample scheduled game, starting 2024-01-15 17:00 UTC, no plays yet. -/
def wgame : Game :=
  ⟨100, 2024, 2, utcMinutesAt ⟨2024, 1, 15⟩ 17 0, none, 1, 2, "scheduled",
   none, none, 0, 0, 0, 0, none, none, none, none⟩

/-- A sample active player of team 1. -/
def wplayerA : PlayerRow :=
  ⟨7, some 1, "Alice", "Zed", some 9, some "C", none, none, none, true⟩

/-- A sample inactive player of team 1. -/
def wplayerB : PlayerRow :=
  ⟨8, some 1, "Bob", "Young", none, none, none, none, none, false⟩

/-- `wplayerA` with only the `playerIsActive` flag flipped. -/
def wplayerA2 : PlayerRow :=
  ⟨7, some 1, "Alice", "Zed", some 9, some "C", none, none, none, false⟩

/-- A sample store with one game and two players. -/
def wstore : Store := ⟨[], [wplayerA, wplayerB], [wgame], []⟩

/-- `wstore` with player 7's active flag flipped and nothing else changed. -/
def wstore2 : Store := ⟨[], [wplayerA2, wplayerB], [wgame], []⟩

/-- A store with no rows at all. -/
def emptyStore : Store := ⟨[], [], [], []⟩

/-- Filtering two pointwise-related lists with predicates that agree on
related elements yields pointwise-related lists. -/
theorem forall2_filter_of_factor {α : Type} {R : α → α → Prop} {p q : α → Bool}
    (hpq : ∀ a b, R a b → p a = q b) :
    ∀ {l1 l2 : List α}, List.Forall₂ R l1 l2 →
      List.Forall₂ R (l1.filter p) (l2.filter q) := by
  intro l1 l2 h
  induction h with
  | nil => exact .nil
  | cons hx hl ih =>
    rename_i a b l1h l2h
    have hq : q b = p a := (hpq a b hx).symm
    rw [List.filter_cons, List.filter_cons, hq]
    cases hc : p a
    · simpa using ih
    · simpa using List.Forall₂.cons hx ih

/-- Ordered insertion into two pointwise-related lists, of related
elements, under an order that respects the relation. -/
theorem forall2_orderedInsert {α : Type} {R : α → α → Prop} {r : α → α → Prop}
    [DecidableRel r] (hr : ∀ a a' b b', R a a' → R b b' → (r a b ↔ r a' b')) :
    ∀ {a b : α} {l1 l2 : List α}, R a b → List.Forall₂ R l1 l2 →
      List.Forall₂ R (List.orderedInsert r a l1) (List.orderedInsert r b l2) := by
  intro a b l1 l2 hab h
  induction h with
  | nil => exact .cons hab .nil
  | cons hx hl ih =>
    rename_i x y l1h l2h
    rw [List.orderedInsert, List.orderedInsert]
    by_cases hc : r a x
    · rw [if_pos hc, if_pos ((hr a b x y hab hx).mp hc)]
      exact .cons hab (.cons hx hl)
    · rw [if_neg hc, if_neg (fun h2 => hc ((hr a b x y hab hx).mpr h2))]
      exact .cons hx ih

/-- Insertion sort preserves pointwise relatedness under an order that
respects the relation. -/
theorem forall2_insertionSort {α : Type} {R : α → α → Prop} {r : α → α → Prop}
    [DecidableRel r] (hr : ∀ a a' b b', R a a' → R b b' → (r a b ↔ r a' b')) :
    ∀ {l1 l2 : List α}, List.Forall₂ R l1 l2 →
      List.Forall₂ R (List.insertionSort r l1) (List.insertionSort r l2) := by
  intro l1 l2 h
  induction h with
  | nil => exact .nil
  | cons hx hl ih =>
    rw [List.insertionSort, List.insertionSort]
    exact forall2_orderedInsert hr hx ih

/-- Mapping a function that agrees on related elements over two
pointwise-related lists yields equal lists. -/
theorem forall2_map_eq {α β : Type} {R : α → α → Prop} {f : α → β}
    (hf : ∀ a b, R a b → f a = f b) :
    ∀ {l1 l2 : List α}, List.Forall₂ R l1 l2 → l1.map f = l2.map f := by
  intro l1 l2 h
  induction h with
  | nil => rfl
  | cons hx hl ih => simp [List.map_cons, hf _ _ hx, ih]

/-- Searching two pointwise-related lists with predicates that agree on
related elements finds related results (compared through `f`). -/
theorem forall2_find_map {α β : Type} {R : α → α → Prop} {p q : α → Bool} {f : α → β}
    (hpq : ∀ a b, R a b → p a = q b) (hf : ∀ a b, R a b → f a = f b) :
    ∀ {l1 l2 : List α}, List.Forall₂ R l1 l2 →
      Option.map f (l1.find? p) = Option.map f (l2.find? q) := by
  intro l1 l2 h
  induction h with
  | nil => rfl
  | cons hx hl ih =>
    rename_i a b l1h l2h
    have hq : q b = p a := (hpq a b hx).symm
    cases hc : p a
    · rw [List.find?_cons_of_neg _ (by simp [hc]), List.find?_cons_of_neg _ (by simp [hq, hc])]
      exact ih
    · rw [List.find?_cons_of_pos _ (by simp [hc]), List.find?_cons_of_pos _ (by simp [hq, hc])]
      simp [hf a b hx]

/-- Related rows carry the same team identifier. -/
theorem rowEquiv_teamId {p q : PlayerRow} (h : rowEquiv p q) :
    p.playerTeamId = q.playerTeamId :=
  congrArg PlayerResponse.playerTeamId h

/-- Related rows carry the same player identifier. -/
theorem rowEquiv_playerId {p q : PlayerRow} (h : rowEquiv p q) :
    p.playerId = q.playerId :=
  congrArg PlayerResponse.playerId h

/-- Related rows carry the same last name. -/
theorem rowEquiv_lastName {p q : PlayerRow} (h : rowEquiv p q) :
    p.playerLastName = q.playerLastName :=
  congrArg PlayerResponse.playerLastName h

/-- Related rows carry the same first name. -/
theorem rowEquiv_firstName {p q : PlayerRow} (h : rowEquiv p q) :
    p.playerFirstName = q.playerFirstName :=
  congrArg PlayerResponse.playerFirstName h

/-- The players ordering only looks at fields that survive projection. -/
theorem playersOrderBy_respects {a a' b b' : PlayerRow}
    (h1 : rowEquiv a a') (h2 : rowEquiv b b') :
    playersOrderBy a b ↔ playersOrderBy a' b' := by
  unfold playersOrderBy lexLe
  simp only []
  rw [rowEquiv_lastName h1, rowEquiv_lastName h2,
    rowEquiv_firstName h1, rowEquiv_firstName h2]

/-- A credential unequal to the configured secret (and nonempty, so the
bearer scheme accepts it) is rejected 401 by `verify_token`. -/
theorem verify_token_wrong (expected cred : String) (h1 : cred ≠ "")
    (h2 : cred ≠ expected) :
    verify_token (some expected) (.presented "Bearer" cred) = .error invalidTokenResp := by
  have hb : httpBearer (.presented "Bearer" cred) = .ok cred := by
    simp only [httpBearer]
    rw [if_neg, if_pos (by decide)]
    rintro (h | h)
    · exact absurd h (by decide)
    · exact h1 h
  unfold verify_token
  rw [hb]
  simp [h2]

/-- With no configured secret, a presented (nonempty) bearer credential
makes `verify_token` fail with the generic 500, not a 401. -/
theorem verify_token_noSecret (cred : String) (h1 : cred ≠ "") :
    verify_token none (.presented "Bearer" cred) = .error internalErrorResp := by
  have hb : httpBearer (.presented "Bearer" cred) = .ok cred := by
    simp only [httpBearer]
    rw [if_neg, if_pos (by decide)]
    rintro (h | h)
    · exact absurd h (by decide)
    · exact h1 h
  unfold verify_token
  rw [hb]

/-- C1 counterexample: a request with a missing bearer credential is
rejected 403 "Not authenticated" by the `HTTPBearer` security scheme —
not 401, and without a challenge header — so the claim's "missing
credential yields 401 with a challenge" fails on `/api/teams`. -/
theorem C1_counterexample :
    (api_get_teams (some "tok") emptyStore .absent).1.statusCode = 403 ∧
    ¬ (api_get_teams (some "tok") emptyStore .absent).1.statusCode = 401 ∧
    (api_get_teams (some "tok") emptyStore .absent).1.headers = [] ∧
    (api_get_teams (some "tok") emptyStore .absent).2 = [] := by
  decide

/-- C1 (amended): on every `/api` route, a missing credential is rejected
403 ("Not authenticated", no challenge header) and a presented nonempty
credential unequal to the configured secret is rejected 401 with the
`WWW-Authenticate: Bearer` challenge; in both cases no repository call is
performed. -/
theorem C1_amended_ok (expected cred : String) (store : Store)
    (dOpt tOpt : Option String) (now tid pid gid : Int)
    (hcred : cred ≠ "") (hne : cred ≠ expected) :
    (api_get_teams (some expected) store .absent = (notAuthenticatedResp, []) ∧
     api_get_active_teams (some expected) store .absent = (notAuthenticatedResp, []) ∧
     api_get_games (some expected) store .absent dOpt tOpt now = (notAuthenticatedResp, []) ∧
     api_get_players_by_team (some expected) store .absent tid = (notAuthenticatedResp, []) ∧
     api_get_player_by_id (some expected) store .absent pid = (notAuthenticatedResp, []) ∧
     api_get_game_detail (some expected) store .absent gid = (notAuthenticatedResp, [])) ∧
    (api_get_teams (some expected) store (.presented "Bearer" cred) = (invalidTokenResp, []) ∧
     api_get_active_teams (some expected) store (.presented "Bearer" cred) = (invalidTokenResp, []) ∧
     api_get_games (some expected) store (.presented "Bearer" cred) dOpt tOpt now = (invalidTokenResp, []) ∧
     api_get_players_by_team (some expected) store (.presented "Bearer" cred) tid = (invalidTokenResp, []) ∧
     api_get_player_by_id (some expected) store (.presented "Bearer" cred) pid = (invalidTokenResp, []) ∧
     api_get_game_detail (some expected) store (.presented "Bearer" cred) gid = (invalidTokenResp, [])) ∧
    notAuthenticatedResp.statusCode = 403 ∧ notAuthenticatedResp.headers = [] ∧
    invalidTokenResp.statusCode = 401 ∧
    invalidTokenResp.headers = [("WWW-Authenticate", "Bearer")] := by
  have hv := verify_token_wrong expected cred hcred hne
  refine ⟨⟨rfl, rfl, rfl, rfl, rfl, rfl⟩, ⟨?_, ?_, ?_, ?_, ?_, ?_⟩, rfl, rfl, rfl, rfl⟩ <;>
    simp [api_get_teams, api_get_active_teams, api_get_games,
      api_get_players_by_team, api_get_player_by_id, api_get_game_detail, hv]

/-- C1 (amended) witness at a concrete wrong credential. -/
theorem C1_amended_witness :
    api_get_teams (some "tok") emptyStore (.presented "Bearer" "wrong") = (invalidTokenResp, []) :=
  (C1_amended_ok "tok" "wrong" emptyStore none none 0 0 0 0 (by decide) (by decide)).2.1.1

/-- C2 counterexample: a malformed `date` on an authenticated
`/api/games` request fails request validation, answered 422 by the
validation handler — not the claimed 400 — with no store call. -/
theorem C2_counterexample :
    (api_get_games (some "tok") emptyStore (.presented "Bearer" "tok")
        (some "2024-1-5") (some "UTC") 0).1.statusCode = 422 ∧
    ¬ (api_get_games (some "tok") emptyStore (.presented "Bearer" "tok")
        (some "2024-1-5") (some "UTC") 0).1.statusCode = 400 ∧
    (api_get_games (some "tok") emptyStore (.presented "Bearer" "tok")
        (some "2024-1-5") (some "UTC") 0).2 = [] := by
  decide

/-- C2 (amended): a present `date` parameter not shaped `YYYY-MM-DD`
makes the authenticated `/api/games` request fail with the structured
422 validation response before any store access. -/
theorem C2_amended_ok (secret : Option String) (store : Store) (auth : AuthHeader)
    (tok s : String) (tOpt : Option String) (now : Int)
    (hauth : verify_token secret auth = .ok tok)
    (hdate : parseDate s = none) :
    api_get_games secret store auth (some s) tOpt now = (validationErrorResp, []) ∧
    validationErrorResp.statusCode = 422 := by
  refine ⟨?_, rfl⟩
  unfold api_get_games
  rw [hauth]
  show (if (parseDate s).isSome = true then
      gamesByDateCore store (some s) (tOpt.getD "America/New_York") now
    else (validationErrorResp, [])) = (validationErrorResp, [])
  rw [hdate]
  rfl

/-- C2 (amended) witness at a concrete malformed date. -/
theorem C2_amended_witness :
    api_get_games (some "tok") emptyStore (.presented "Bearer" "tok")
        (some "2024-1-5") (some "UTC") 0 = (validationErrorResp, []) :=
  (C2_amended_ok (some "tok") emptyStore (.presented "Bearer" "tok") "tok" "2024-1-5"
    (some "UTC") 0 rfl (by decide)).1

/-- C3: the game-detail route resolves the game first — an absent game id
gives a 404 whose trace holds only the game lookup (plays are never
fetched); a present game gives a 200 composed detail whose plays are the
game's rows ordered by period then index, possibly empty and still 200. -/
theorem C3_ok (secret : Option String) (store : Store) (auth : AuthHeader)
    (tok : String) (game_id : Int)
    (hauth : verify_token secret auth = .ok tok) :
    (games_repo.get_game_by_id store game_id = none →
      api_get_game_detail secret store auth game_id =
        (notFoundResp "Game" game_id, [.getGameById game_id]) ∧
      (notFoundResp "Game" game_id).statusCode = 404) ∧
    (∀ g, games_repo.get_game_by_id store game_id = some g →
      api_get_game_detail secret store auth game_id =
        (ok200 (renderGameDetail g (plays_repo.get_plays_by_game store game_id)),
          [.getGameById game_id, .getPlaysByGame game_id]) ∧
      (ok200 (renderGameDetail g (plays_repo.get_plays_by_game store game_id))).statusCode = 200 ∧
      List.Sorted playsOrderBy (plays_repo.get_plays_by_game store game_id) ∧
      ∀ p ∈ plays_repo.get_plays_by_game store game_id,
        p ∈ store.plays ∧ p.playGameId = game_id) := by
  constructor
  · intro h
    refine ⟨?_, rfl⟩
    unfold api_get_game_detail
    rw [hauth, h]
  · intro g hg
    refine ⟨?_, rfl, ?_, ?_⟩
    · unfold api_get_game_detail
      rw [hauth, hg]
    · unfold plays_repo.get_plays_by_game
      exact List.sorted_insertionSort _ _
    · intro p hp
      unfold plays_repo.get_plays_by_game at hp
      have hmem := (List.perm_insertionSort playsOrderBy _).mem_iff.mp hp
      have hf := List.mem_filter.mp hmem
      exact ⟨hf.1, by simpa using hf.2⟩

/-- C3 witness: a store whose game 100 has no plays — id 999 is a 404
with only the game lookup traced, id 100 a 200 with an empty play list. -/
theorem C3_ok_witness :
    (api_get_game_detail (some "tok") wstore (.presented "Bearer" "tok") 999 =
      (notFoundResp "Game" 999, [.getGameById 999])) ∧
    (api_get_game_detail (some "tok") wstore (.presented "Bearer" "tok") 100 =
      (ok200 (renderGameDetail wgame (plays_repo.get_plays_by_game wstore 100)),
        [.getGameById 100, .getPlaysByGame 100])) ∧
    plays_repo.get_plays_by_game wstore 100 = [] :=
  ⟨((C3_ok (some "tok") wstore (.presented "Bearer" "tok") "tok" 999 rfl).1
      (by decide)).1,
   ((C3_ok (some "tok") wstore (.presented "Bearer" "tok") "tok" 100 rfl).2 wgame
      (by decide)).1,
   by decide⟩

/-- C4 (spec-modelled): `listGamesByLocalDate` returns exactly the games
whose UTC start lies in the half-open local-midnight-to-local-midnight
window converted to UTC bounds; for 2024-01-15 that window starts at
05:00 UTC for America/New_York (EST) and at 00:00 UTC for UTC, 24 hours
wide each, and the two windows differ. -/
theorem C4_ok :
    (∀ (store : Store) (d : CivilDate) (tz : Timezone) (g : Game),
        g ∈ listGamesByLocalDate store d tz ↔
          g ∈ store.games ∧
            tz.localMidnightUtc d ≤ g.gameDateTimeUtc ∧
            g.gameDateTimeUtc < tz.localMidnightUtc (nextDay d)) ∧
    newYorkTz.localMidnightUtc ⟨2024, 1, 15⟩ = utcMinutesAt ⟨2024, 1, 15⟩ 5 0 ∧
    newYorkTz.localMidnightUtc (nextDay ⟨2024, 1, 15⟩) = utcMinutesAt ⟨2024, 1, 16⟩ 5 0 ∧
    utcTz.localMidnightUtc ⟨2024, 1, 15⟩ = utcMinutesAt ⟨2024, 1, 15⟩ 0 0 ∧
    utcTz.localMidnightUtc (nextDay ⟨2024, 1, 15⟩) = utcMinutesAt ⟨2024, 1, 16⟩ 0 0 ∧
    newYorkTz.localMidnightUtc ⟨2024, 1, 15⟩ ≠ utcTz.localMidnightUtc ⟨2024, 1, 15⟩ := by
  refine ⟨?_, by decide, by decide, by decide, by decide, by decide⟩
  intro store d tz g
  unfold listGamesByLocalDate
  simp only [List.mem_filter, decide_eq_true_eq]

/-- C5: an authenticated `/api/games` request whose date parameter (when
present) is well-shaped but whose timezone is not a recognized IANA zone
fails 400 before any store call. -/
theorem C5_ok (secret : Option String) (store : Store) (auth : AuthHeader)
    (tok : String) (dOpt : Option String) (tzStr : String) (now : Int)
    (hauth : verify_token secret auth = .ok tok)
    (hdate : ∀ s, dOpt = some s → (parseDate s).isSome = true)
    (htz : pytz_timezone tzStr = none) :
    api_get_games secret store auth dOpt (some tzStr) now = (invalidTimezoneResp tzStr, []) ∧
    (invalidTimezoneResp tzStr).statusCode = 400 := by
  refine ⟨?_, rfl⟩
  unfold api_get_games
  rw [hauth]
  cases dOpt with
  | none =>
    show gamesByDateCore store none tzStr now = (invalidTimezoneResp tzStr, [])
    unfold gamesByDateCore
    rw [htz]
  | some s =>
    show (if (parseDate s).isSome = true then
        gamesByDateCore store (some s) tzStr now
      else (validationErrorResp, [])) = (invalidTimezoneResp tzStr, [])
    rw [hdate s rfl, if_pos rfl]
    unfold gamesByDateCore
    rw [htz]

/-- C5 witness at the concrete unknown zone of the spec. -/
theorem C5_ok_witness :
    api_get_games (some "tok") emptyStore (.presented "Bearer" "tok") none
        (some "Not/AZone") 0 = (invalidTimezoneResp "Not/AZone", []) :=
  (C5_ok (some "tok") emptyStore (.presented "Bearer" "tok") "tok" none "Not/AZone" 0
    rfl (fun _ h => Option.noConfusion h) rfl).1

/-- C6: with no date parameter, the resolved filter date of an
authenticated `/api/games` request is the calendar date of that request's
observed current instant rendered in the request's timezone; the instant
is an argument of each request, so the wall clock is read per request. -/
theorem C6_ok (secret : Option String) (store : Store) (auth : AuthHeader)
    (tok tzStr : String) (tz : Timezone) (now : Int)
    (hauth : verify_token secret auth = .ok tok)
    (htz : pytz_timezone tzStr = some tz) :
    api_get_games secret store auth none (some tzStr) now =
      (ok200 (jsonArr ((games_repo.get_games_by_date store
          (formatDate (tz.localCivilDate now)) tzStr).map renderGame)),
        [.getGamesByDate (formatDate (tz.localCivilDate now)) tzStr]) := by
  unfold api_get_games
  rw [hauth]
  show gamesByDateCore store none tzStr now = _
  unfold gamesByDateCore
  rw [htz]

/-- C6 witness: at 2024-01-15 12:00 UTC, the resolved date for
Pacific/Auckland is 2024-01-16, not the UTC calendar date 2024-01-15. -/
theorem C6_ok_witness :
    (api_get_games (some "tok") emptyStore (.presented "Bearer" "tok") none
        (some "Pacific/Auckland") (utcMinutesAt ⟨2024, 1, 15⟩ 12 0)).2 =
      [.getGamesByDate "2024-01-16" "Pacific/Auckland"] ∧
    formatDate (utcTz.localCivilDate (utcMinutesAt ⟨2024, 1, 15⟩ 12 0)) = "2024-01-15" := by
  constructor
  · rw [C6_ok (some "tok") emptyStore (.presented "Bearer" "tok") "tok" "Pacific/Auckland"
      aucklandTz (utcMinutesAt ⟨2024, 1, 15⟩ 12 0) rfl rfl]
    decide
  · decide

/-- C7: the players-by-team route always answers 200 with exactly the
team's rows ordered by last then first name; an unknown team or one
without players yields the empty 200 list, not an error. -/
theorem C7_ok (secret : Option String) (store : Store) (auth : AuthHeader)
    (tok : String) (team_id : Int)
    (hauth : verify_token secret auth = .ok tok) :
    (api_get_players_by_team secret store auth team_id).1.statusCode = 200 ∧
    (api_get_players_by_team secret store auth team_id).2 = [.getPlayersByTeam team_id] ∧
    List.Sorted playersOrderBy (players_repo.get_players_by_team store team_id) ∧
    (∀ p, p ∈ players_repo.get_players_by_team store team_id ↔
      p ∈ store.players ∧ p.playerTeamId = some team_id) ∧
    ((∀ p ∈ store.players, p.playerTeamId ≠ some team_id) →
      (api_get_players_by_team secret store auth team_id).1 = ok200 (jsonArr [])) := by
  have hmem : ∀ p, p ∈ players_repo.get_players_by_team store team_id ↔
      p ∈ store.players ∧ p.playerTeamId = some team_id := by
    intro p
    unfold players_repo.get_players_by_team
    rw [(List.perm_insertionSort playersOrderBy _).mem_iff]
    simp only [List.mem_filter, decide_eq_true_eq]
  have heval : api_get_players_by_team secret store auth team_id =
      (if players_repo.get_players_by_team store team_id = [] then
        (ok200 (jsonArr []), [StoreCall.getPlayersByTeam team_id])
      else
        (ok200 (jsonArr ((players_repo.get_players_by_team store team_id).map
            (fun p => renderPlayer (PlayerResponse.ofRow p)))),
          [StoreCall.getPlayersByTeam team_id])) := by
    unfold api_get_players_by_team
    rw [hauth]
  refine ⟨?_, ?_, ?_, hmem, ?_⟩
  · rw [heval]
    by_cases h : players_repo.get_players_by_team store team_id = [] <;> simp [h, ok200]
  · rw [heval]
    by_cases h : players_repo.get_players_by_team store team_id = [] <;> simp [h]
  · unfold players_repo.get_players_by_team
    exact List.sorted_insertionSort _ _
  · intro hno
    have hrepoNil : players_repo.get_players_by_team store team_id = [] := by
      rw [List.eq_nil_iff_forall_not_mem]
      intro p hp
      exact hno p ((hmem p).mp hp).1 ((hmem p).mp hp).2
    rw [heval, if_pos hrepoNil]

/-- C7 witness: team 1 has two players, sorted Young before Zed; team 55
has none and yields the empty 200 list. -/
theorem C7_ok_witness :
    (api_get_players_by_team (some "tok") wstore (.presented "Bearer" "tok") 1).1.statusCode = 200 ∧
    players_repo.get_players_by_team wstore 1 = [wplayerB, wplayerA] ∧
    (api_get_players_by_team (some "tok") wstore (.presented "Bearer" "tok") 55).1 =
      ok200 (jsonArr []) :=
  ⟨(C7_ok (some "tok") wstore (.presented "Bearer" "tok") "tok" 1 rfl).1,
   by decide,
   (C7_ok (some "tok") wstore (.presented "Bearer" "tok") "tok" 55 rfl).2.2.2.2 (by decide)⟩

/-- C8 counterexample: two authenticated `/api/games` requests with
identical parameters (no date, UTC zone) against the same unchanged
store, observed one day apart, produce different JSON bodies — so GET
responses are not byte-identical for identical parameters alone. -/
theorem C8_counterexample :
    (api_get_games (some "tok") wstore (.presented "Bearer" "tok") none (some "UTC")
        (utcMinutesAt ⟨2024, 1, 15⟩ 12 0)).1.body ≠
    (api_get_games (some "tok") wstore (.presented "Bearer" "tok") none (some "UTC")
        (utcMinutesAt ⟨2024, 1, 16⟩ 12 0)).1.body := by
  decide

/-- C8 (amended): repeating a GET with identical parameters, credentials
and store yields byte-identical JSON provided the observed instant is
also unchanged — and when the `date` parameter is supplied, the
`/api/games` response does not depend on the observed instant at all
(no other route reads the clock). -/
theorem C8_amended_ok (secret : Option String) (store : Store) (auth : AuthHeader)
    (s : String) (tzParam : Option String) (now1 now2 : Int) :
    api_get_games secret store auth (some s) tzParam now1 =
      api_get_games secret store auth (some s) tzParam now2 := by
  unfold api_get_games
  cases hv : verify_token secret auth with
  | error r => rfl
  | ok tok => rfl

/-- C9: with no configured secret, any `/api` request presenting a
(nonempty) bearer credential fails with the generic 500 — a
service-misconfiguration outcome distinct from the 401 credential
rejection — and performs no store call. -/
theorem C9_ok (store : Store) (cred : String) (dOpt tOpt : Option String)
    (now tid pid gid : Int) (hcred : cred ≠ "") :
    (api_get_teams none store (.presented "Bearer" cred) = (internalErrorResp, []) ∧
     api_get_active_teams none store (.presented "Bearer" cred) = (internalErrorResp, []) ∧
     api_get_games none store (.presented "Bearer" cred) dOpt tOpt now = (internalErrorResp, []) ∧
     api_get_players_by_team none store (.presented "Bearer" cred) tid = (internalErrorResp, []) ∧
     api_get_player_by_id none store (.presented "Bearer" cred) pid = (internalErrorResp, []) ∧
     api_get_game_detail none store (.presented "Bearer" cred) gid = (internalErrorResp, [])) ∧
    internalErrorResp.statusCode = 500 ∧
    internalErrorResp.statusCode ≠ 401 := by
  have hv := verify_token_noSecret cred hcred
  refine ⟨⟨?_, ?_, ?_, ?_, ?_, ?_⟩, rfl, by decide⟩ <;>
    simp [api_get_teams, api_get_active_teams, api_get_games,
      api_get_players_by_team, api_get_player_by_id, api_get_game_detail, hv]

/-- C9 witness at a concrete presented credential. -/
theorem C9_ok_witness :
    api_get_teams none emptyStore (.presented "Bearer" "anything") = (internalErrorResp, []) :=
  (C9_ok emptyStore "anything" none none 0 0 0 0 (by decide)).1.1

/-- C10: stores whose player tables agree up to the `playerIsActive`
column are indistinguishable through both player routes: the repository
selects the flag, the response model drops it, so responses and traces
coincide. -/
theorem C10_ok (secret : Option String) (auth : AuthHeader)
    (store1 store2 : Store) (team_id player_id : Int)
    (h : List.Forall₂ rowEquiv store1.players store2.players) :
    api_get_players_by_team secret store1 auth team_id =
      api_get_players_by_team secret store2 auth team_id ∧
    api_get_player_by_id secret store1 auth player_id =
      api_get_player_by_id secret store2 auth player_id := by
  have hfilter : ∀ a b, rowEquiv a b →
      decide (a.playerTeamId = some team_id) = decide (b.playerTeamId = some team_id) := by
    intro a b hab
    rw [rowEquiv_teamId hab]
  have horder : ∀ a a' b b' : PlayerRow, rowEquiv a a' → rowEquiv b b' →
      (playersOrderBy a b ↔ playersOrderBy a' b') :=
    fun _ _ _ _ h1 h2 => playersOrderBy_respects h1 h2
  have hplayers : List.Forall₂ rowEquiv
      (players_repo.get_players_by_team store1 team_id)
      (players_repo.get_players_by_team store2 team_id) := by
    unfold players_repo.get_players_by_team
    exact forall2_insertionSort horder (forall2_filter_of_factor hfilter h)
  constructor
  · unfold api_get_players_by_team
    cases verify_token secret auth with
    | error r => rfl
    | ok tok =>
      have hmap : (players_repo.get_players_by_team store1 team_id).map
            (fun p => renderPlayer (PlayerResponse.ofRow p)) =
          (players_repo.get_players_by_team store2 team_id).map
            (fun p => renderPlayer (PlayerResponse.ofRow p)) :=
        forall2_map_eq
          (fun a b hab => by
            rw [show PlayerResponse.ofRow a = PlayerResponse.ofRow b from hab])
          hplayers
      have hlen := hplayers.length_eq
      by_cases he : players_repo.get_players_by_team store1 team_id = []
      · have he2 : players_repo.get_players_by_team store2 team_id = [] :=
          List.length_eq_zero.mp (by rw [← hlen, he]; rfl)
        simp [he, he2]
      · have he2 : ¬ players_repo.get_players_by_team store2 team_id = [] := by
          intro h2
          exact he (List.length_eq_zero.mp (by rw [hlen, h2]; rfl))
        simp [he, he2, hmap]
  · unfold api_get_player_by_id
    cases verify_token secret auth with
    | error r => rfl
    | ok tok =>
      have hpid : ∀ a b : PlayerRow, rowEquiv a b →
          decide (a.playerId = player_id) = decide (b.playerId = player_id) := by
        intro a b hab
        rw [rowEquiv_playerId hab]
      have hofrow : ∀ a b : PlayerRow, rowEquiv a b →
          PlayerResponse.ofRow a = PlayerResponse.ofRow b :=
        fun _ _ hab => hab
      have hfind := forall2_find_map hpid hofrow h
      unfold players_repo.get_player_by_id
      cases h1 : store1.players.find? (fun p => decide (p.playerId = player_id)) with
      | none =>
        cases h2 : store2.players.find? (fun p => decide (p.playerId = player_id)) with
        | none => rfl
        | some q =>
          rw [h1, h2] at hfind
          exact absurd hfind (by simp)
      | some p =>
        cases h2 : store2.players.find? (fun p => decide (p.playerId = player_id)) with
        | none =>
          rw [h1, h2] at hfind
          exact absurd hfind (by simp)
        | some q =>
          rw [h1, h2] at hfind
          have hpq : PlayerResponse.ofRow p = PlayerResponse.ofRow q := by
            simpa using hfind
          simp [hpq]

/-- C10 witness: flipping only player 7's active flag changes the stored
row but leaves both player routes' responses unchanged. -/
theorem C10_ok_witness :
    (api_get_players_by_team (some "tok") wstore (.presented "Bearer" "tok") 1 =
      api_get_players_by_team (some "tok") wstore2 (.presented "Bearer" "tok") 1) ∧
    (api_get_player_by_id (some "tok") wstore (.presented "Bearer" "tok") 7 =
      api_get_player_by_id (some "tok") wstore2 (.presented "Bearer" "tok") 7) ∧
    wplayerA ≠ wplayerA2 :=
  ⟨(C10_ok (some "tok") (.presented "Bearer" "tok") wstore wstore2 1 7
      (.cons rfl (.cons rfl .nil))).1,
   (C10_ok (some "tok") (.presented "Bearer" "tok") wstore wstore2 1 7
      (.cons rfl (.cons rfl .nil))).2,
   by decide⟩

end NhlApi
